import Mathlib

/-!
The request handlers of package `service` of ignite.

A shallow embedding of `src/service/service.go`, `src/service/user.go` and
`src/service/admin.go`.

* A Go `error` is an `Option Err` (`none` is `nil`); a Go `(T, error)` is an
  `Except Err T`.
* A handler is a function from what it reads (the bound request, the values
  stored in the gin context, the answers of its collaborators) to the list of
  effects it performs, in program order: the calls it makes into the state core
  and the responses it writes with `c.JSON`.
* Packages `api`, `model`, `state`, `config` and the libraries (`gin`, `jwt-go`,
  `bcrypt`, `protos`) are not part of the source tree; what the handlers use of
  them is taken as a parameter.
-/

namespace Ignite

/-! ## Go and net/http basics -/

/-- Go's builtin `len` on a string: its length in bytes. -/
def len (s : String) : Nat := s.utf8ByteSize

def StatusOK : Nat := 200
def StatusCreated : Nat := 201
def StatusNoContent : Nat := 204
def StatusBadRequest : Nat := 400
def StatusUnauthorized : Nat := 401
def StatusNotFound : Nat := 404
def StatusPreconditionFailed : Nat := 412
def StatusInternalServerError : Nat := 500

/-- The function `http.StatusText`, on the status codes the handlers use. -/
def StatusText (code : Nat) : String :=
  if code = 200 then "OK"
  else if code = 201 then "Created"
  else if code = 204 then "No Content"
  else if code = 400 then "Bad Request"
  else if code = 401 then "Unauthorized"
  else if code = 404 then "Not Found"
  else if code = 412 then "Precondition Failed"
  else if code = 500 then "Internal Server Error"
  else ""

/-! ## Package api: errors and requests -/

/-- A non-nil Go error value. The named constructors are the error variables of
package `api` that the handlers compare against with `switch err`; `other` is any
other error value (a persistence failure, a library error, `fmt.Errorf`). -/
inductive Err where
  | ErrInviteCodeNotExistOrUnavailable
  | ErrInviteCodeExpired
  | ErrUserNameExists
  | ErrUserPasswordIncorrect
  | ErrServiceExists
  | ErrNodeNotExist
  | ErrNodeUnavailable
  | ErrNodeNameExists
  | ErrNodeRequestAddressExists
  | ErrNodeHasServicesExceedPortRange
  | other (msg : String)
  deriving DecidableEq, Repr

/-- What `errJSON` asks of an error value: whether its dynamic type is
`*api.ErrResponse`, and its `Error()` text. -/
structure ErrorInfo where
  isErrResponse : Err → Bool
  Error : Err → String

namespace api

structure UserRegisterRequest where
  Username : String
  Password : String
  InviteCode : String
  deriving DecidableEq, Repr

structure UserChangePasswordRequest where
  OldPassword : String
  NewPassword : String
  deriving DecidableEq, Repr

structure CreateServiceRequest where
  NodeID : String
  Type_ : Int
  EncryptionMethod : Int
  deriving DecidableEq, Repr

structure AddNodeRequest where
  Name : String
  Comment : String
  RequestAddress : String
  ConnectionAddress : String
  PortFrom : Int
  PortTo : Int
  deriving DecidableEq, Repr

structure UpdateNodeRequest where
  Name : String
  Comment : String
  ConnectionAddress : String
  PortFrom : Int
  PortTo : Int
  deriving DecidableEq, Repr

/-- The struct `api.NodeService`: a node and one service, `nil` when absent. -/
structure NodeService (ν σ : Type) where
  Node : ν
  Service : Option σ
  deriving DecidableEq, Repr

/-- The struct `api.ServiceOptions`. -/
structure ServiceOptions where
  Type_ : Int
  EncryptionMethods : List Int
  deriving DecidableEq, Repr

end api

/-! ## Package model -/

namespace model

structure User where
  ID : String
  Name : String
  HashedPwd : List Nat
  ServicePassword : String
  deriving DecidableEq, Repr

structure Node where
  ID : String
  Name : String
  Comment : String
  RequestAddress : String
  ConnectionAddress : String
  PortFrom : Int
  PortTo : Int
  deriving DecidableEq, Repr

structure ServiceConfig where
  EncryptionMethod : Int
  Password : String
  deriving DecidableEq, Repr

structure Service where
  ID : String
  UserID : String
  NodeID : String
  Type_ : Int
  Config : ServiceConfig
  deriving DecidableEq, Repr

/-- The persistence layer, as far as the handlers below call it. -/
structure Handler where
  GetUserByID : String → Except Err (Option User)
  CreateNode : Node → Option Err
  UpdateNode : Node → Option Err

end model

/-! ## Package state: the state core the handlers call -/

namespace state

/-- The struct `state.NodeServices`: a node with the services of one user on it. -/
structure NodeServices (ν σ : Type) where
  Node : ν
  Services : List σ
  deriving DecidableEq, Repr

/-- The answers of the state core. `AddNode` and `UpdateNode` receive the
persistence callback built by the handler. -/
structure Handler where
  AddUser : model.User → Option Err
  ChangeUserPassword : String → String → String → Option Err
  AddService : model.Service → Option Err
  AddNode : model.Node → (Unit → Option Err) → Option Err
  UpdateNode : model.Node → (Unit → Option Err) → Option Err
  CheckUserExists : String → Bool

end state

/-! ## Package service -/

namespace config

structure Service where
  Secret : String
  AdminUsername : String
  AdminPassword : String
  /-- In nanoseconds, as a `time.Duration`. -/
  TokenDuration : Int
  SyncInterval : Int

end config

/-- The claims `createToken` signs: `id` and `exp`. -/
structure MapClaims where
  id : String
  exp : Int
  deriving DecidableEq, Repr

/-- Library and constructor functions the handlers call. `Now` is the value of
`time.Now()` in nanoseconds since the epoch. -/
structure Deps where
  info : ErrorInfo
  Now : Int
  SignedString : MapClaims → String → Except Err String
  GenerateFromPassword : String → Except Err (List Nat)
  NewUser : String → List Nat → String → model.User
  NewNode : String → String → String → String → Int → Int → model.Node
  NewService : String → String → Int → model.ServiceConfig → model.Service

namespace service

structure Options where
  StateHandler : state.Handler
  ModelHandler : model.Handler
  Config : config.Service

structure Service where
  opts : Options
  deps : Deps

end service

/-- A call into the state core, with its arguments. -/
inductive Call where
  | AddUser (user : model.User)
  | ChangeUserPassword (userID newPassword oldPassword : String)
  | AddService (svc : model.Service)
  | AddNode (node : model.Node)
  | UpdateNode (node : model.Node)
  deriving DecidableEq, Repr

/-- The second argument of `c.JSON`. -/
inductive Body (β : Type) where
  | null
  | errResponse (v : Err)
  | newErrResponse (code : Nat) (message : String)
  | value (b : β)
  deriving DecidableEq, Repr

/-- What a handler does, one entry per action, in program order. -/
inductive Effect (β : Type) where
  | call (c : Call)
  | JSON (code : Nat) (body : Body β)
  deriving DecidableEq, Repr

/-- The status codes of the responses written, in order. -/
def statuses {β : Type} : List (Effect β) → List Nat
  | [] => []
  | Effect.JSON code _ :: es => code :: statuses es
  | Effect.call _ :: es => statuses es

/-- The calls made into the state core, in order. -/
def calls {β : Type} : List (Effect β) → List Call
  | [] => []
  | Effect.JSON _ _ :: es => calls es
  | Effect.call c :: es => c :: calls es

namespace service

/-- The method `errJSON` of service.go. -/
def errJSON {β : Type} (s : Service) (statusCode : Nat) (err : Option Err) : Effect β :=
  match err with
  | some v =>
    if s.deps.info.isErrResponse v then
      Effect.JSON statusCode (Body.errResponse v)
    else
      Effect.JSON statusCode (Body.newErrResponse statusCode (s.deps.info.Error v))
  | none =>
    Effect.JSON statusCode (Body.newErrResponse statusCode (StatusText statusCode))

/-- The method `createToken` of service.go. -/
def createToken (s : Service) (id : String) : Except Err String :=
  let token : MapClaims :=
    { id := id, exp := (s.deps.Now + s.opts.Config.TokenDuration) / 1000000000 }
  match s.deps.SignedString token s.opts.Config.Secret with
  | Except.error err => Except.error err
  | Except.ok tokenStr => Except.ok tokenStr

/-- The function `checkPassword` of service.go. -/
def checkPassword (password : String) : Option Err :=
  if len password < 6 ∨ len password > 12 then
    some (Err.other "invalid password")
  else
    none

/-- The handler `UserRegister` of user.go. -/
def UserRegister (s : Service) (bind : Except Err api.UserRegisterRequest) :
    List (Effect String) :=
  match bind with
  | Except.error err => [errJSON s StatusBadRequest (some err)]
  | Except.ok req =>
    match checkPassword req.Password with
    | some err => [errJSON s StatusBadRequest (some err)]
    | none =>
      match s.deps.GenerateFromPassword req.Password with
      | Except.error err => [errJSON s StatusInternalServerError (some err)]
      | Except.ok hashedPass =>
        let user := s.deps.NewUser req.Username hashedPass req.InviteCode
        match s.opts.StateHandler.AddUser user with
        | some err =>
          Effect.call (Call.AddUser user) ::
            (if err = Err.ErrInviteCodeNotExistOrUnavailable then
              [errJSON s StatusPreconditionFailed (some err)]
            else if err = Err.ErrInviteCodeExpired then
              [errJSON s StatusPreconditionFailed (some err)]
            else if err = Err.ErrUserNameExists then
              [errJSON s StatusPreconditionFailed (some err)]
            else
              [errJSON s StatusInternalServerError (some err)])
        | none =>
          Effect.call (Call.AddUser user) ::
            (match createToken s user.ID with
            | Except.error err => [errJSON s StatusInternalServerError (some err)]
            | Except.ok token => [Effect.JSON StatusCreated (Body.value token)])

/-- The handler `UserChangePassword` of user.go. The `switch` on the error of
the state core is not followed by a `return`. -/
def UserChangePassword (s : Service) (bind : Except Err api.UserChangePasswordRequest)
    (ctxId : String) : List (Effect Unit) :=
  match bind with
  | Except.error err => [errJSON s StatusBadRequest (some err)]
  | Except.ok req =>
    match checkPassword req.NewPassword with
    | some err => [errJSON s StatusBadRequest (some err)]
    | none =>
      let userID := ctxId
      Effect.call (Call.ChangeUserPassword userID req.NewPassword req.OldPassword) ::
        ((match s.opts.StateHandler.ChangeUserPassword userID req.NewPassword req.OldPassword with
          | some err =>
            if err = Err.ErrUserPasswordIncorrect then
              [errJSON s StatusPreconditionFailed (some err)]
            else
              [errJSON s StatusInternalServerError (some err)]
          | none => []) ++
        [Effect.JSON StatusNoContent Body.null])

/-- The handler `CreateService` of user.go. -/
def CreateService (s : Service) (ctxId : String)
    (bind : Except Err api.CreateServiceRequest) : List (Effect Unit) :=
  let userID := ctxId
  match bind with
  | Except.error err => [errJSON s StatusBadRequest (some err)]
  | Except.ok req =>
    match s.opts.ModelHandler.GetUserByID userID with
    | Except.error err => [errJSON s StatusInternalServerError (some err)]
    | Except.ok none => [errJSON s StatusUnauthorized none]
    | Except.ok (some user) =>
      let sc : model.ServiceConfig :=
        { EncryptionMethod := req.EncryptionMethod, Password := user.ServicePassword }
      let svc := s.deps.NewService userID req.NodeID req.Type_ sc
      Effect.call (Call.AddService svc) ::
        (match s.opts.StateHandler.AddService svc with
        | some err =>
          if err = Err.ErrServiceExists then
            [errJSON s StatusPreconditionFailed (some err)]
          else if err = Err.ErrNodeNotExist then
            [errJSON s StatusBadRequest (some err)]
          else if err = Err.ErrNodeUnavailable then
            [errJSON s StatusPreconditionFailed (some err)]
          else
            [errJSON s StatusInternalServerError (some err)]
        | none => [Effect.JSON StatusNoContent Body.null])

/-- The handler `GetUserServices` of user.go: the status and the list it writes.
The argument is the method `GetNodeServices` of the state core; a `for` loop
appends one entry per element. -/
def GetUserServices {ν σ : Type}
    (GetNodeServices : String → String → List (state.NodeServices ν σ)) (ctxId : String) :
    Nat × List (api.NodeService ν σ) :=
  let resp := (GetNodeServices ctxId "").foldl
    (fun resp ns =>
      let r : api.NodeService ν σ := { Node := ns.Node, Service := none }
      let r := match ns.Services with
        | [] => r
        | s0 :: _ => { r with Service := some s0 }
      resp ++ [r])
    []
  (StatusOK, resp)

end service

/-! ## Package protos and GetServiceOptions -/

/-- What `GetServiceOptions` uses of package `protos`: the enum values and the
method `Suit` of a service type. -/
structure Protos where
  ServiceType_SS_LIBEV : Int
  ServiceType_SSR : Int
  ServiceEncryptionMethod_NOT_SET : Int
  Suit : Int → Int → Bool

/-- The call `sort.Slice(l, func(i, j) bool { return l[i] < l[j] })`: the
elements of `l` in ascending order. -/
def sortSlice (l : List Int) : List Int := l.insertionSort (fun a b => a ≤ b)

namespace service

/-- The inner loop of `GetServiceOptions`: one `range` over the map
`ServiceEncryptionMethod_Enum_name`, whose keys come in the order `keys`. -/
def collectMethods (p : Protos) (t : Int) (keys : List Int) : api.ServiceOptions :=
  keys.foldl
    (fun so k =>
      let m := k
      if m = p.ServiceEncryptionMethod_NOT_SET then so
      else if p.Suit t m then { so with EncryptionMethods := so.EncryptionMethods ++ [m] }
      else so)
    { Type_ := t, EncryptionMethods := [] }

/-- The handler `GetServiceOptions` of user.go: the status and the list it
writes. `rangeKeys i` is the order in which the `i`-th `range` over the map
`ServiceEncryptionMethod_Enum_name` yields its keys (Go does not fix it). -/
def GetServiceOptions (p : Protos) (rangeKeys : Nat → List Int) :
    Nat × List api.ServiceOptions :=
  let sos := (List.enum [p.ServiceType_SS_LIBEV, p.ServiceType_SSR]).foldl
    (fun sos it => sos ++ [collectMethods p it.2 (rangeKeys it.1)])
    []
  let sos := sos.map
    (fun so => { so with EncryptionMethods := sortSlice so.EncryptionMethods })
  (StatusOK, sos)

/-! ### UserServicesSync -/

end service

/-- What the step function of `UserServicesSync` does besides polling. -/
inductive StreamEffect (α : Type) where
  | Sleep (d : Int)
  | SSEvent (name : String) (data : α)
  deriving DecidableEq, Repr

/-- The data of the events in a list of stream effects, in order. -/
def events {α : Type} : List (StreamEffect α) → List (String × α)
  | [] => []
  | StreamEffect.Sleep _ :: es => events es
  | StreamEffect.SSEvent name data :: es => (name, data) :: events es

/-- The outcome of one call of a step function: the captured variable `first`
afterwards, what the call did, and the value it returns. -/
structure StepResult (α : Type) where
  first : Bool
  effects : List (StreamEffect α)
  keep : Bool
  deriving DecidableEq, Repr

/-- The loop of gin's `c.Stream(step)`: before each call of `step` it looks
whether the client is gone; it stops when the client is gone or `step`
returns false. `i` counts the polls made so far and `r i` is what
`GetSyncResponse` returns at poll `i`. The result has one entry per call of
`step`; `none` when `fuel` iterations do not finish the loop. -/
def Stream {α : Type} (step : Bool → List α → StepResult α) (clientGone : Nat → Bool)
    (r : Nat → List α) : Nat → Nat → Bool → Option (List (List (StreamEffect α)))
  | 0, _, _ => none
  | fuel + 1, i, first =>
    if clientGone i then some []
    else
      let out := step first (r i)
      if out.keep then
        (Stream step clientGone r fuel (i + 1) out.first).map (fun t => out.effects :: t)
      else some [out.effects]

namespace service

/-- The closure `UserServicesSync` passes to `c.Stream`; `r` is the result of
`s.opts.StateHandler.GetSyncResponse(userID)` at this poll. -/
def syncStep {α : Type} (s : Service) (first : Bool) (r : List α) : StepResult α :=
  let pre : List (StreamEffect α) :=
    if !first then [StreamEffect.Sleep s.opts.Config.SyncInterval] else []
  match r with
  | r0 :: _ => { first := false, effects := pre ++ [StreamEffect.SSEvent "user_sync" r0], keep := true }
  | [] => { first := false, effects := pre, keep := false }

/-- The handler `UserServicesSync` of user.go. `GetSyncResponse i userID` is
the answer of the state core to the `i`-th poll. -/
def UserServicesSync {α : Type} (s : Service) (GetSyncResponse : Nat → String → List α)
    (clientGone : Nat → Bool) (ctxId : String) (fuel : Nat) :
    Option (List (List (StreamEffect α))) :=
  let userID := ctxId
  Stream (syncStep s) clientGone (fun i => GetSyncResponse i userID) fuel 0 true

/-! ### admin.go -/

/-- The handler `AddNode` of admin.go. `Body.value node` is `node.Output()`. -/
def AddNode (s : Service) (bind : Except Err api.AddNodeRequest) :
    List (Effect model.Node) :=
  match bind with
  | Except.error err => [errJSON s StatusBadRequest (some err)]
  | Except.ok req =>
    let node := s.deps.NewNode req.Name req.Comment req.RequestAddress
      req.ConnectionAddress req.PortFrom req.PortTo
    let f : Unit → Option Err := fun _ => s.opts.ModelHandler.CreateNode node
    Effect.call (Call.AddNode node) ::
      (match s.opts.StateHandler.AddNode node f with
      | some err =>
        if err = Err.ErrNodeNameExists then
          [errJSON s StatusBadRequest (some err)]
        else if err = Err.ErrNodeRequestAddressExists then
          [errJSON s StatusBadRequest (some err)]
        else
          [errJSON s StatusInternalServerError (some err)]
      | none => [Effect.JSON StatusCreated (Body.value node)])

/-- The handler `UpdateNode` of admin.go; `paramId` is `c.Param("id")`. -/
def UpdateNode (s : Service) (paramId : String) (bind : Except Err api.UpdateNodeRequest) :
    List (Effect Unit) :=
  match bind with
  | Except.error err => [errJSON s StatusBadRequest (some err)]
  | Except.ok req =>
    let node : model.Node :=
      { ID := paramId, Name := req.Name, Comment := req.Comment, RequestAddress := "",
        ConnectionAddress := req.ConnectionAddress, PortFrom := req.PortFrom,
        PortTo := req.PortTo }
    let f : Unit → Option Err := fun _ => s.opts.ModelHandler.UpdateNode node
    Effect.call (Call.UpdateNode node) ::
      (match s.opts.StateHandler.UpdateNode node f with
      | some err =>
        if err = Err.ErrNodeNotExist then
          [errJSON s StatusNotFound (some err)]
        else if err = Err.ErrNodeHasServicesExceedPortRange then
          [errJSON s StatusBadRequest (some err)]
        else
          [errJSON s StatusInternalServerError (some err)]
      | none => [Effect.JSON StatusNoContent Body.null])

end service

/-! ## The middleware Auth -/

/-- A value of type `interface{}` found in the token's claims. -/
inductive ClaimValue where
  | missing
  | str (v : String)
  | number (v : Int)
  deriving DecidableEq, Repr

/-- What `Auth` reads of the parsed `*jwt.Token`. `VerifyExpiresAt t` is
`claims.VerifyExpiresAt(t, true)` and `idClaim` is `claims["id"]`. -/
structure Token where
  Valid : Bool
  Raw : String
  VerifyExpiresAt : Int → Bool
  idClaim : ClaimValue

/-- What the middleware does to the gin context. -/
inductive AuthEffect where
  | AbortWithError (code : Nat) (err : Err)
  | Set (key : String) (value : ClaimValue)
  deriving DecidableEq, Repr

namespace service

/-- The middleware `Auth` of service.go; `parsed` is the result of
`request.ParseFromRequest`. -/
def Auth (s : Service) (isAdmin : Bool) (parsed : Except Err Token) : List AuthEffect :=
  match parsed with
  | Except.error err => [AuthEffect.AbortWithError StatusUnauthorized err]
  | Except.ok token =>
    if !token.Valid then
      [AuthEffect.AbortWithError StatusUnauthorized (Err.other "token is invalid")]
    else if !token.VerifyExpiresAt (s.deps.Now / 1000000000) then
      [AuthEffect.AbortWithError StatusUnauthorized (Err.other "token is expired")]
    else
      match token.idClaim with
      | ClaimValue.str id =>
        if (isAdmin && id != s.opts.Config.AdminUsername) || (!isAdmin && id == "") then
          [AuthEffect.AbortWithError StatusUnauthorized (Err.other "token auth error")]
        else if !isAdmin && !s.opts.StateHandler.CheckUserExists id then
          [AuthEffect.AbortWithError StatusUnauthorized (Err.other "user not exists")]
        else
          [AuthEffect.Set "id" token.idClaim, AuthEffect.Set "token" (ClaimValue.str token.Raw)]
      | _ =>
        [AuthEffect.AbortWithError StatusUnauthorized (Err.other "token'id is invalid")]

end service

/-! ## The calls the handlers make into the state core -/

namespace service

/-- The error `UserRegister` gets from `StateHandler.AddUser` once the password
is hashed to `hashedPass`. -/
def registerErr (s : Service) (req : api.UserRegisterRequest) (hashedPass : List Nat) :
    Option Err :=
  s.opts.StateHandler.AddUser (s.deps.NewUser req.Username hashedPass req.InviteCode)

/-- The result of `createToken` in `UserRegister`. -/
def registerToken (s : Service) (req : api.UserRegisterRequest) (hashedPass : List Nat) :
    Except Err String :=
  createToken s (s.deps.NewUser req.Username hashedPass req.InviteCode).ID

/-- The error `CreateService` gets from `StateHandler.AddService` for the user
`user` found by `GetUserByID`. -/
def createServiceErr (s : Service) (ctxId : String) (req : api.CreateServiceRequest)
    (user : model.User) : Option Err :=
  s.opts.StateHandler.AddService
    (s.deps.NewService ctxId req.NodeID req.Type_
      { EncryptionMethod := req.EncryptionMethod, Password := user.ServicePassword })

/-- The error `AddNode` gets from `StateHandler.AddNode`. -/
def addNodeErr (s : Service) (req : api.AddNodeRequest) : Option Err :=
  s.opts.StateHandler.AddNode
    (s.deps.NewNode req.Name req.Comment req.RequestAddress req.ConnectionAddress
      req.PortFrom req.PortTo)
    (fun _ => s.opts.ModelHandler.CreateNode
      (s.deps.NewNode req.Name req.Comment req.RequestAddress req.ConnectionAddress
        req.PortFrom req.PortTo))

/-- The error `UpdateNode` gets from `StateHandler.UpdateNode`. -/
def updateNodeErr (s : Service) (paramId : String) (req : api.UpdateNodeRequest) :
    Option Err :=
  s.opts.StateHandler.UpdateNode
    { ID := paramId, Name := req.Name, Comment := req.Comment, RequestAddress := "",
      ConnectionAddress := req.ConnectionAddress, PortFrom := req.PortFrom,
      PortTo := req.PortTo }
    (fun _ => s.opts.ModelHandler.UpdateNode
      { ID := paramId, Name := req.Name, Comment := req.Comment, RequestAddress := "",
        ConnectionAddress := req.ConnectionAddress, PortFrom := req.PortFrom,
        PortTo := req.PortTo })

end service

/-! ## Sample collaborators -/

def sampleInfo : ErrorInfo :=
  { isErrResponse := fun e => match e with
      | Err.other _ => false
      | _ => true
    Error := fun e => match e with
      | Err.other msg => msg
      | _ => "api error" }

/-- Libraries that succeed, except that signing fails when `signFails`. -/
def sampleDeps (signFails : Bool) : Deps :=
  { info := sampleInfo
    Now := 1700000000000000000
    SignedString := fun c _ =>
      if signFails then Except.error (Err.other "key is of invalid type")
      else Except.ok ("jwt:" ++ c.id)
    GenerateFromPassword := fun _ => Except.ok [36, 50, 97]
    NewUser := fun name hashed _ =>
      { ID := "u-1", Name := name, HashedPwd := hashed, ServicePassword := "svc-pass" }
    NewNode := fun name comment ra ca pf pt =>
      { ID := "n-1", Name := name, Comment := comment, RequestAddress := ra,
        ConnectionAddress := ca, PortFrom := pf, PortTo := pt }
    NewService := fun userID nodeID t sc =>
      { ID := "s-1", UserID := userID, NodeID := nodeID, Type_ := t, Config := sc } }

/-- A state core whose mutating calls all return `e`, and which knows the user
`u-1` only. -/
def sampleCore (e : Option Err) : state.Handler :=
  { AddUser := fun _ => e
    ChangeUserPassword := fun _ _ _ => e
    AddService := fun _ => e
    AddNode := fun _ _ => e
    UpdateNode := fun _ _ => e
    CheckUserExists := fun id => id == "u-1" }

def sampleModel : model.Handler :=
  { GetUserByID := fun id =>
      Except.ok (some { ID := id, Name := "alice", HashedPwd := [36, 50, 97],
                        ServicePassword := "svc-pass" })
    CreateNode := fun _ => none
    UpdateNode := fun _ => none }

def sampleConfig : config.Service :=
  { Secret := "secret", AdminUsername := "admin", AdminPassword := "admin-pass",
    TokenDuration := 3600000000000, SyncInterval := 1000000000 }

/-- A service over `sampleCore e`. -/
def sampleService (e : Option Err) (signFails : Bool) : service.Service :=
  { opts := { StateHandler := sampleCore e, ModelHandler := sampleModel, Config := sampleConfig }
    deps := sampleDeps signFails }

/-- A valid, unexpired token whose id claim is the string `id`. -/
def sampleToken (id : String) : Token :=
  { Valid := true, Raw := "raw-token", VerifyExpiresAt := fun _ => true,
    idClaim := ClaimValue.str id }

/-- The answers of a state core to the polls of one stream: two non-empty
results, then an empty one. -/
def samplePolls : Nat → String → List String
  | 0, _ => ["node-a", "node-b"]
  | 1, _ => ["node-b"]
  | _, _ => []

/-- The test `GetServiceOptions` applies to a key `m` of the map for the type `t`. -/
def suits (p : Protos) (t : Int) (m : Int) : Bool :=
  decide (m ≠ p.ServiceEncryptionMethod_NOT_SET) && p.Suit t m

/-- An instance of package `protos`: `NOT_SET` is 0, type 1 is suited by the
methods up to 3 and type 2 by the odd ones. -/
def sampleProtos : Protos :=
  { ServiceType_SS_LIBEV := 1
    ServiceType_SSR := 2
    ServiceEncryptionMethod_NOT_SET := 0
    Suit := fun t m => if t = 1 then decide (m ≤ 3) else decide (m % 2 = 1) }

/-- Two iteration orders of the keys 0, ..., 4. -/
def sampleRangeKeys : Nat → List Int
  | 0 => [3, 0, 4, 1, 2]
  | _ => [4, 3, 2, 1, 0]

/-! ## Lemmas on traces -/

theorem statuses_errJSON {β : Type} (s : service.Service) (code : Nat) (err : Option Err)
    (es : List (Effect β)) :
    statuses (service.errJSON s code err :: es) = code :: statuses es := by
  unfold service.errJSON
  cases err with
  | none => rfl
  | some v =>
    by_cases h : s.deps.info.isErrResponse v = true
    · simp [h, statuses]
    · simp [h, statuses]

theorem calls_errJSON {β : Type} (s : service.Service) (code : Nat) (err : Option Err)
    (es : List (Effect β)) :
    calls (service.errJSON s code err :: es) = calls es := by
  unfold service.errJSON
  cases err with
  | none => rfl
  | some v =>
    by_cases h : s.deps.info.isErrResponse v = true
    · simp [h, calls]
    · simp [h, calls]

theorem checkPassword_isSome_iff (p : String) :
    (service.checkPassword p).isSome = true ↔ (len p < 6 ∨ len p > 12) := by
  unfold service.checkPassword
  by_cases h : len p < 6 ∨ len p > 12
  · simp [h]
  · simp [h]

theorem checkPassword_eq_none_iff (p : String) :
    service.checkPassword p = none ↔ (6 ≤ len p ∧ len p ≤ 12) := by
  unfold service.checkPassword
  by_cases h : len p < 6 ∨ len p > 12
  · simp only [h, if_true]
    constructor
    · intro h0; cases h0
    · intro h1; omega
  · simp only [h, if_false]
    constructor
    · intro _; omega
    · intro _; trivial

/-! ## C10: the password length gate -/

/-- C10: `checkPassword p` returns an error exactly when the byte length of `p`
is below 6 or above 12; and for a bound request whose (new) password `p` has
such a length, `UserRegister` and `UserChangePassword` write one response,
with status 400, and make no call into the state core. -/
theorem checkPassword_gate (s : service.Service)
    (p username inviteCode oldPassword ctxId : String) :
    ((service.checkPassword p).isSome = true ↔ (len p < 6 ∨ len p > 12)) ∧
    ((len p < 6 ∨ len p > 12) →
      statuses (service.UserRegister s
        (Except.ok { Username := username, Password := p, InviteCode := inviteCode }))
          = [StatusBadRequest] ∧
      calls (service.UserRegister s
        (Except.ok { Username := username, Password := p, InviteCode := inviteCode })) = [] ∧
      statuses (service.UserChangePassword s
        (Except.ok { OldPassword := oldPassword, NewPassword := p }) ctxId)
          = [StatusBadRequest] ∧
      calls (service.UserChangePassword s
        (Except.ok { OldPassword := oldPassword, NewPassword := p }) ctxId) = []) := by
  refine ⟨checkPassword_isSome_iff p, ?_⟩
  intro h
  have hc : service.checkPassword p = some (Err.other "invalid password") := by
    unfold service.checkPassword
    simp [h]
  refine ⟨?_, ?_, ?_, ?_⟩
  · simp only [service.UserRegister, hc, statuses_errJSON, statuses]
  · simp only [service.UserRegister, hc, calls_errJSON, calls]
  · simp only [service.UserChangePassword, hc, statuses_errJSON, statuses]
  · simp only [service.UserChangePassword, hc, calls_errJSON, calls]

/-- A witness of C10: the three-byte password `abc`. -/
theorem checkPassword_gate_witness :
    (len "abc" < 6 ∨ len "abc" > 12) ∧
    statuses (service.UserRegister (sampleService none false)
      (Except.ok { Username := "bob", Password := "abc", InviteCode := "code" }))
        = [StatusBadRequest] ∧
    calls (service.UserChangePassword (sampleService none false)
      (Except.ok { OldPassword := "old-secret", NewPassword := "abc" }) "u-1") = [] :=
  ⟨Or.inl (by decide),
   ((checkPassword_gate (sampleService none false) "abc" "bob" "code" "old-secret" "u-1").2
      (Or.inl (by decide))).1,
   ((checkPassword_gate (sampleService none false) "abc" "bob" "code" "old-secret" "u-1").2
      (Or.inl (by decide))).2.2.2⟩

/-! ## C2: UserChangePassword after an error of the state core -/

/-- Once the request is bound and the new password has passed the length
check, `UserChangePassword` calls the state core and ends by writing 204,
whatever the core returned: after an error it has written the error response
first. -/
theorem UserChangePassword_always_writes_204 (s : service.Service)
    (req : api.UserChangePasswordRequest) (ctxId : String)
    (hp : service.checkPassword req.NewPassword = none) :
    statuses (service.UserChangePassword s (Except.ok req) ctxId) =
      match s.opts.StateHandler.ChangeUserPassword ctxId req.NewPassword req.OldPassword with
      | none => [StatusNoContent]
      | some e =>
        [if e = Err.ErrUserPasswordIncorrect then StatusPreconditionFailed
          else StatusInternalServerError, StatusNoContent] := by
  simp only [service.UserChangePassword, hp]
  cases hc : s.opts.StateHandler.ChangeUserPassword ctxId req.NewPassword req.OldPassword with
  | none => simp [statuses]
  | some e =>
    by_cases he : e = Err.ErrUserPasswordIncorrect
    · simp [he, statuses, statuses_errJSON]
    · simp [he, statuses, statuses_errJSON]

/-- C2, the code at the failing input: the old password is wrong, the state core
returns `ErrUserPasswordIncorrect`, and `UserChangePassword` writes the 412
error response and then the 204 success response as well. -/
theorem UserChangePassword_incorrect_password_writes_412_then_204 :
    service.UserChangePassword (sampleService (some Err.ErrUserPasswordIncorrect) false)
      (Except.ok { OldPassword := "wrong-old", NewPassword := "new-secret" }) "u-1" =
      [Effect.call (Call.ChangeUserPassword "u-1" "new-secret" "wrong-old"),
       Effect.JSON StatusPreconditionFailed (Body.errResponse Err.ErrUserPasswordIncorrect),
       Effect.JSON StatusNoContent Body.null] ∧
    statuses (service.UserChangePassword
      (sampleService (some Err.ErrUserPasswordIncorrect) false)
      (Except.ok { OldPassword := "wrong-old", NewPassword := "new-secret" }) "u-1") =
      [412, 204] := by
  have hp : service.checkPassword "new-secret" = none := by
    rw [checkPassword_eq_none_iff]; decide
  constructor
  · simp [service.UserChangePassword, hp, sampleService, sampleCore, service.errJSON,
      sampleDeps, sampleInfo]
  · simp [service.UserChangePassword, hp, sampleService, sampleCore, service.errJSON,
      sampleDeps, sampleInfo, statuses, StatusPreconditionFailed, StatusNoContent]

/-! ## C1 and C4: the status CreateService gives to an error of AddService -/

/-- The statuses `CreateService` writes once the request is bound and the user is
found, from the result of `StateHandler.AddService`. -/
theorem CreateService_statuses (s : service.Service) (ctxId : String)
    (req : api.CreateServiceRequest) (user : model.User)
    (hu : s.opts.ModelHandler.GetUserByID ctxId = Except.ok (some user)) :
    statuses (service.CreateService s ctxId (Except.ok req)) =
      match service.createServiceErr s ctxId req user with
      | none => [StatusNoContent]
      | some e =>
        if e = Err.ErrServiceExists then [StatusPreconditionFailed]
        else if e = Err.ErrNodeNotExist then [StatusBadRequest]
        else if e = Err.ErrNodeUnavailable then [StatusPreconditionFailed]
        else [StatusInternalServerError] := by
  simp only [service.CreateService, hu, service.createServiceErr]
  cases hc : s.opts.StateHandler.AddService
      (s.deps.NewService ctxId req.NodeID req.Type_
        { EncryptionMethod := req.EncryptionMethod, Password := user.ServicePassword }) with
  | none => simp [statuses]
  | some e =>
    simp only [statuses]
    split_ifs <;> simp [statuses_errJSON, statuses]

/-- The statuses `UpdateNode` writes once the request is bound, from the result
of `StateHandler.UpdateNode`. -/
theorem UpdateNode_statuses (s : service.Service) (paramId : String)
    (req : api.UpdateNodeRequest) :
    statuses (service.UpdateNode s paramId (Except.ok req)) =
      match service.updateNodeErr s paramId req with
      | none => [StatusNoContent]
      | some e =>
        if e = Err.ErrNodeNotExist then [StatusNotFound]
        else if e = Err.ErrNodeHasServicesExceedPortRange then [StatusBadRequest]
        else [StatusInternalServerError] := by
  simp only [service.UpdateNode, service.updateNodeErr]
  cases hc : s.opts.StateHandler.UpdateNode
      { ID := paramId, Name := req.Name, Comment := req.Comment, RequestAddress := "",
        ConnectionAddress := req.ConnectionAddress, PortFrom := req.PortFrom,
        PortTo := req.PortTo }
      (fun _ => s.opts.ModelHandler.UpdateNode
        { ID := paramId, Name := req.Name, Comment := req.Comment, RequestAddress := "",
          ConnectionAddress := req.ConnectionAddress, PortFrom := req.PortFrom,
          PortTo := req.PortTo }) with
  | none => simp [statuses]
  | some e =>
    simp only [statuses]
    split_ifs <;> simp [statuses_errJSON, statuses]

/-- The statuses `AddNode` writes once the request is bound, from the result of
`StateHandler.AddNode`. -/
theorem AddNode_statuses (s : service.Service) (req : api.AddNodeRequest) :
    statuses (service.AddNode s (Except.ok req)) =
      match service.addNodeErr s req with
      | none => [StatusCreated]
      | some e =>
        if e = Err.ErrNodeNameExists then [StatusBadRequest]
        else if e = Err.ErrNodeRequestAddressExists then [StatusBadRequest]
        else [StatusInternalServerError] := by
  simp only [service.AddNode, service.addNodeErr]
  cases hc : s.opts.StateHandler.AddNode
      (s.deps.NewNode req.Name req.Comment req.RequestAddress req.ConnectionAddress
        req.PortFrom req.PortTo)
      (fun _ => s.opts.ModelHandler.CreateNode
        (s.deps.NewNode req.Name req.Comment req.RequestAddress req.ConnectionAddress
          req.PortFrom req.PortTo)) with
  | none => simp [statuses]
  | some e =>
    simp only [statuses]
    split_ifs <;> simp [statuses_errJSON, statuses]

/-- The statuses `UserRegister` writes once the request is bound, the password
has passed the length check and is hashed, from the results of
`StateHandler.AddUser` and `createToken`. -/
theorem UserRegister_statuses (s : service.Service) (req : api.UserRegisterRequest)
    (hashedPass : List Nat)
    (hp : service.checkPassword req.Password = none)
    (hh : s.deps.GenerateFromPassword req.Password = Except.ok hashedPass) :
    statuses (service.UserRegister s (Except.ok req)) =
      match service.registerErr s req hashedPass with
      | some e =>
        if e = Err.ErrInviteCodeNotExistOrUnavailable then [StatusPreconditionFailed]
        else if e = Err.ErrInviteCodeExpired then [StatusPreconditionFailed]
        else if e = Err.ErrUserNameExists then [StatusPreconditionFailed]
        else [StatusInternalServerError]
      | none =>
        match service.registerToken s req hashedPass with
        | Except.error _ => [StatusInternalServerError]
        | Except.ok _ => [StatusCreated] := by
  simp only [service.UserRegister, hp, hh, service.registerErr, service.registerToken]
  cases hc : s.opts.StateHandler.AddUser
      (s.deps.NewUser req.Username hashedPass req.InviteCode) with
  | none =>
    simp only [statuses]
    cases ht : service.createToken s
        (s.deps.NewUser req.Username hashedPass req.InviteCode).ID with
    | error e => simp [statuses_errJSON, statuses]
    | ok t => simp [statuses]
  | some e =>
    simp only [statuses]
    split_ifs <;> simp [statuses_errJSON, statuses]

/-- C1, as stated, fails for `CreateService`: when `StateHandler.AddService`
returns `ErrNodeNotExist` the handler writes one response, with status 400,
and no response with status 404. -/
theorem CreateService_ErrNodeNotExist_is_400 :
    service.createServiceErr (sampleService (some Err.ErrNodeNotExist) false) "u-1"
      { NodeID := "n-9", Type_ := 1, EncryptionMethod := 1 }
      { ID := "u-1", Name := "alice", HashedPwd := [36, 50, 97],
        ServicePassword := "svc-pass" } = some Err.ErrNodeNotExist ∧
    statuses (service.CreateService (sampleService (some Err.ErrNodeNotExist) false) "u-1"
      (Except.ok { NodeID := "n-9", Type_ := 1, EncryptionMethod := 1 })) = [400] ∧
    ¬ (404 ∈ statuses
      (service.CreateService (sampleService (some Err.ErrNodeNotExist) false) "u-1"
        (Except.ok { NodeID := "n-9", Type_ := 1, EncryptionMethod := 1 }))) := by
  have h := CreateService_statuses (sampleService (some Err.ErrNodeNotExist) false) "u-1"
    { NodeID := "n-9", Type_ := 1, EncryptionMethod := 1 }
    { ID := "u-1", Name := "alice", HashedPwd := [36, 50, 97], ServicePassword := "svc-pass" }
    rfl
  have hc : service.createServiceErr (sampleService (some Err.ErrNodeNotExist) false) "u-1"
      { NodeID := "n-9", Type_ := 1, EncryptionMethod := 1 }
      { ID := "u-1", Name := "alice", HashedPwd := [36, 50, 97],
        ServicePassword := "svc-pass" } = some Err.ErrNodeNotExist := rfl
  rw [hc] at h
  simp only [reduceCtorEq, if_false, if_true] at h
  rw [h]
  exact ⟨hc, by simp [StatusBadRequest], by simp [StatusBadRequest]⟩

/-- C1, amended: when `StateHandler.UpdateNode` returns `ErrNodeNotExist` the
`UpdateNode` handler writes one response, with status 404; when
`StateHandler.AddService` returns `ErrNodeNotExist` the `CreateService`
handler writes one response, with status 400. -/
theorem ErrNodeNotExist_statuses (s : service.Service) (paramId : String)
    (reqU : api.UpdateNodeRequest) (ctxId : String) (reqC : api.CreateServiceRequest)
    (user : model.User) :
    (service.updateNodeErr s paramId reqU = some Err.ErrNodeNotExist →
      statuses (service.UpdateNode s paramId (Except.ok reqU)) = [StatusNotFound]) ∧
    (s.opts.ModelHandler.GetUserByID ctxId = Except.ok (some user) →
      service.createServiceErr s ctxId reqC user = some Err.ErrNodeNotExist →
      statuses (service.CreateService s ctxId (Except.ok reqC)) = [StatusBadRequest]) := by
  constructor
  · intro h
    rw [UpdateNode_statuses, h]
    simp
  · intro hu h
    rw [CreateService_statuses s ctxId reqC user hu, h]
    simp

/-- A witness of the amended C1: a state core that answers `ErrNodeNotExist`. -/
theorem ErrNodeNotExist_statuses_witness :
    statuses (service.UpdateNode (sampleService (some Err.ErrNodeNotExist) false) "n-9"
      (Except.ok { Name := "tokyo", Comment := "", ConnectionAddress := "10.0.0.9",
                   PortFrom := 10000, PortTo := 10002 })) = [StatusNotFound] ∧
    statuses (service.CreateService (sampleService (some Err.ErrNodeNotExist) false) "u-1"
      (Except.ok { NodeID := "n-9", Type_ := 1, EncryptionMethod := 1 }))
        = [StatusBadRequest] :=
  ⟨(ErrNodeNotExist_statuses (sampleService (some Err.ErrNodeNotExist) false) "n-9"
      { Name := "tokyo", Comment := "", ConnectionAddress := "10.0.0.9",
        PortFrom := 10000, PortTo := 10002 } "u-1"
      { NodeID := "n-9", Type_ := 1, EncryptionMethod := 1 }
      { ID := "u-1", Name := "alice", HashedPwd := [36, 50, 97],
        ServicePassword := "svc-pass" }).1 rfl,
   (ErrNodeNotExist_statuses (sampleService (some Err.ErrNodeNotExist) false) "n-9"
      { Name := "tokyo", Comment := "", ConnectionAddress := "10.0.0.9",
        PortFrom := 10000, PortTo := 10002 } "u-1"
      { NodeID := "n-9", Type_ := 1, EncryptionMethod := 1 }
      { ID := "u-1", Name := "alice", HashedPwd := [36, 50, 97],
        ServicePassword := "svc-pass" }).2 rfl rfl⟩

/-- C4, as stated, fails: when `StateHandler.AddService` returns an error that
is none of `ErrServiceExists`, `ErrNodeNotExist`, `ErrNodeUnavailable` (here
the error of a node without a free port), `CreateService` writes one response,
with status 500, and none with status 400, 409 or 412. -/
theorem CreateService_no_free_port_is_500 :
    service.createServiceErr (sampleService (some (Err.other "no available port")) false)
      "u-1" { NodeID := "n-1", Type_ := 1, EncryptionMethod := 1 }
      { ID := "u-1", Name := "alice", HashedPwd := [36, 50, 97],
        ServicePassword := "svc-pass" } = some (Err.other "no available port") ∧
    statuses (service.CreateService
      (sampleService (some (Err.other "no available port")) false) "u-1"
      (Except.ok { NodeID := "n-1", Type_ := 1, EncryptionMethod := 1 })) = [500] ∧
    ¬ (∃ c ∈ statuses (service.CreateService
      (sampleService (some (Err.other "no available port")) false) "u-1"
      (Except.ok { NodeID := "n-1", Type_ := 1, EncryptionMethod := 1 })),
        c = 400 ∨ c = 409 ∨ c = 412) := by
  have h := CreateService_statuses
    (sampleService (some (Err.other "no available port")) false) "u-1"
    { NodeID := "n-1", Type_ := 1, EncryptionMethod := 1 }
    { ID := "u-1", Name := "alice", HashedPwd := [36, 50, 97], ServicePassword := "svc-pass" }
    rfl
  have hc : service.createServiceErr
      (sampleService (some (Err.other "no available port")) false) "u-1"
      { NodeID := "n-1", Type_ := 1, EncryptionMethod := 1 }
      { ID := "u-1", Name := "alice", HashedPwd := [36, 50, 97],
        ServicePassword := "svc-pass" } = some (Err.other "no available port") := rfl
  rw [hc] at h
  simp only [reduceCtorEq, if_false] at h
  rw [h]
  exact ⟨hc, by simp [StatusInternalServerError], by simp [StatusInternalServerError]⟩

/-- C4, amended: when `StateHandler.AddService` returns an error other than
`ErrServiceExists`, `ErrNodeNotExist` and `ErrNodeUnavailable`, a
capacity-exceeded error included, `CreateService` writes one response, with
status 500. -/
theorem CreateService_other_error_is_500 (s : service.Service) (ctxId : String)
    (req : api.CreateServiceRequest) (user : model.User) (e : Err)
    (hu : s.opts.ModelHandler.GetUserByID ctxId = Except.ok (some user))
    (he : service.createServiceErr s ctxId req user = some e)
    (h1 : e ≠ Err.ErrServiceExists) (h2 : e ≠ Err.ErrNodeNotExist)
    (h3 : e ≠ Err.ErrNodeUnavailable) :
    statuses (service.CreateService s ctxId (Except.ok req)) = [StatusInternalServerError] := by
  rw [CreateService_statuses s ctxId req user hu, he]
  simp [h1, h2, h3]

/-- A witness of the amended C4: the error of a node without a free port. -/
theorem CreateService_other_error_is_500_witness :
    statuses (service.CreateService
      (sampleService (some (Err.other "no available port")) false) "u-1"
      (Except.ok { NodeID := "n-1", Type_ := 1, EncryptionMethod := 1 }))
        = [StatusInternalServerError] :=
  CreateService_other_error_is_500
    (sampleService (some (Err.other "no available port")) false) "u-1"
    { NodeID := "n-1", Type_ := 1, EncryptionMethod := 1 }
    { ID := "u-1", Name := "alice", HashedPwd := [36, 50, 97], ServicePassword := "svc-pass" }
    (Err.other "no available port") rfl rfl (by decide) (by decide) (by decide)

/-! ## C5: AddNode, UpdateNode and UserRegister on the errors of the state core -/

/-- C5, as stated, fails at two places. `UpdateNode` answers the error
`ErrNodeNotExist`, which is not `ErrNodeHasServicesExceedPortRange`, with 404
and not with 500. And `UserRegister` does not write 201 when the state core
returned no error but `createToken` failed: it writes 500. -/
theorem UpdateNode_NotExist_is_404_and_register_token_failure_is_500 :
    (service.updateNodeErr (sampleService (some Err.ErrNodeNotExist) false) "n-9"
        { Name := "tokyo", Comment := "", ConnectionAddress := "10.0.0.9",
          PortFrom := 10000, PortTo := 10002 } = some Err.ErrNodeNotExist ∧
      statuses (service.UpdateNode (sampleService (some Err.ErrNodeNotExist) false) "n-9"
        (Except.ok { Name := "tokyo", Comment := "", ConnectionAddress := "10.0.0.9",
                     PortFrom := 10000, PortTo := 10002 })) = [404] ∧
      ¬ (500 ∈ statuses
        (service.UpdateNode (sampleService (some Err.ErrNodeNotExist) false) "n-9"
          (Except.ok { Name := "tokyo", Comment := "", ConnectionAddress := "10.0.0.9",
                       PortFrom := 10000, PortTo := 10002 })))) ∧
    (service.registerErr (sampleService none true)
        { Username := "bob", Password := "secret1", InviteCode := "code" } [36, 50, 97]
        = none ∧
      statuses (service.UserRegister (sampleService none true)
        (Except.ok { Username := "bob", Password := "secret1", InviteCode := "code" }))
        = [500] ∧
      ¬ (201 ∈ statuses (service.UserRegister (sampleService none true)
          (Except.ok { Username := "bob", Password := "secret1", InviteCode := "code" })) ↔
        service.registerErr (sampleService none true)
          { Username := "bob", Password := "secret1", InviteCode := "code" } [36, 50, 97]
          = none)) := by
  have hp : service.checkPassword "secret1" = none := by
    rw [checkPassword_eq_none_iff]; decide
  have hU := UpdateNode_statuses (sampleService (some Err.ErrNodeNotExist) false) "n-9"
    { Name := "tokyo", Comment := "", ConnectionAddress := "10.0.0.9",
      PortFrom := 10000, PortTo := 10002 }
  have hR := UserRegister_statuses (sampleService none true)
    { Username := "bob", Password := "secret1", InviteCode := "code" } [36, 50, 97] hp rfl
  have hU2 : statuses (service.UpdateNode (sampleService (some Err.ErrNodeNotExist) false)
      "n-9" (Except.ok { Name := "tokyo", Comment := "", ConnectionAddress := "10.0.0.9",
                         PortFrom := 10000, PortTo := 10002 })) = [404] := by
    rw [hU]; rfl
  have hR2 : statuses (service.UserRegister (sampleService none true)
      (Except.ok { Username := "bob", Password := "secret1", InviteCode := "code" }))
      = [500] := by
    rw [hR]; rfl
  refine ⟨⟨rfl, hU2, ?_⟩, ⟨rfl, hR2, ?_⟩⟩
  · rw [hU2]; decide
  · rw [hR2]
    intro h
    have h2 := h.2 rfl
    simp at h2

/-- C5, amended: for every error `e` the state core returns, `AddNode` answers
400 when `e` is `ErrNodeNameExists` or `ErrNodeRequestAddressExists`;
`UpdateNode` answers 404 when `e` is `ErrNodeNotExist` and 400 when it is
`ErrNodeHasServicesExceedPortRange`; `UserRegister` answers 412 when `e` is
`ErrInviteCodeNotExistOrUnavailable`, `ErrInviteCodeExpired` or
`ErrUserNameExists`; each answers 500 for every other error. `AddNode` writes
201 and `UpdateNode` writes 204 exactly when the core returned no error;
`UserRegister` writes 201 exactly when the core returned no error and
`createToken` succeeded, and answers 500 when `createToken` failed. The
request of `UserRegister` is one whose password passed the length check and
was hashed to `hashedPass`. -/
theorem core_error_statuses (s : service.Service) (reqA : api.AddNodeRequest)
    (paramId : String) (reqU : api.UpdateNodeRequest) (reqR : api.UserRegisterRequest)
    (hashedPass : List Nat) :
    (∀ e, service.addNodeErr s reqA = some e →
      statuses (service.AddNode s (Except.ok reqA)) =
        [if e = Err.ErrNodeNameExists ∨ e = Err.ErrNodeRequestAddressExists
          then StatusBadRequest else StatusInternalServerError]) ∧
    (StatusCreated ∈ statuses (service.AddNode s (Except.ok reqA)) ↔
      service.addNodeErr s reqA = none) ∧
    (∀ e, service.updateNodeErr s paramId reqU = some e →
      statuses (service.UpdateNode s paramId (Except.ok reqU)) =
        [if e = Err.ErrNodeNotExist then StatusNotFound
          else if e = Err.ErrNodeHasServicesExceedPortRange then StatusBadRequest
          else StatusInternalServerError]) ∧
    (StatusNoContent ∈ statuses (service.UpdateNode s paramId (Except.ok reqU)) ↔
      service.updateNodeErr s paramId reqU = none) ∧
    (service.checkPassword reqR.Password = none →
      s.deps.GenerateFromPassword reqR.Password = Except.ok hashedPass →
      (∀ e, service.registerErr s reqR hashedPass = some e →
        statuses (service.UserRegister s (Except.ok reqR)) =
          [if e = Err.ErrInviteCodeNotExistOrUnavailable ∨ e = Err.ErrInviteCodeExpired ∨
              e = Err.ErrUserNameExists
            then StatusPreconditionFailed else StatusInternalServerError]) ∧
      (StatusCreated ∈ statuses (service.UserRegister s (Except.ok reqR)) ↔
        service.registerErr s reqR hashedPass = none ∧
          ∃ token, service.registerToken s reqR hashedPass = Except.ok token) ∧
      (∀ e, service.registerErr s reqR hashedPass = none →
        service.registerToken s reqR hashedPass = Except.error e →
        statuses (service.UserRegister s (Except.ok reqR)) = [StatusInternalServerError])) := by
  have hA := AddNode_statuses s reqA
  have hU := UpdateNode_statuses s paramId reqU
  refine ⟨?_, ?_, ?_, ?_, ?_⟩
  · intro e he
    rw [hA, he]
    by_cases h1 : e = Err.ErrNodeNameExists
    · simp [h1]
    · by_cases h2 : e = Err.ErrNodeRequestAddressExists
      · simp [h2]
      · simp [h1, h2]
  · rw [hA]
    cases he : service.addNodeErr s reqA with
    | none => simp
    | some e =>
      simp only [reduceCtorEq, iff_false]
      split_ifs <;>
        simp [StatusCreated, StatusBadRequest, StatusInternalServerError]
  · intro e he
    rw [hU, he]
    by_cases h1 : e = Err.ErrNodeNotExist
    · simp [h1]
    · by_cases h2 : e = Err.ErrNodeHasServicesExceedPortRange
      · simp [h2]
      · simp [h1, h2]
  · rw [hU]
    cases he : service.updateNodeErr s paramId reqU with
    | none => simp
    | some e =>
      simp only [reduceCtorEq, iff_false]
      split_ifs <;>
        simp [StatusNoContent, StatusNotFound, StatusBadRequest, StatusInternalServerError]
  · intro hp hh
    have hR := UserRegister_statuses s reqR hashedPass hp hh
    refine ⟨?_, ?_, ?_⟩
    · intro e he
      rw [hR, he]
      by_cases h1 : e = Err.ErrInviteCodeNotExistOrUnavailable
      · simp [h1]
      · by_cases h2 : e = Err.ErrInviteCodeExpired
        · simp [h2]
        · by_cases h3 : e = Err.ErrUserNameExists
          · simp [h3]
          · simp [h1, h2, h3]
    · rw [hR]
      cases he : service.registerErr s reqR hashedPass with
      | none =>
        cases ht : service.registerToken s reqR hashedPass with
        | error e => simp [StatusCreated, StatusInternalServerError]
        | ok t => simp
      | some e =>
        simp only [reduceCtorEq, false_and, iff_false]
        split_ifs <;>
          simp [StatusCreated, StatusPreconditionFailed, StatusInternalServerError]
    · intro e he ht
      rw [hR, he, ht]

/-- A witness of the amended C5: a state core that answers `ErrUserNameExists`
to a registration with a seven-byte password. -/
theorem core_error_statuses_witness :
    service.checkPassword "secret1" = none ∧
    statuses (service.UserRegister (sampleService (some Err.ErrUserNameExists) false)
      (Except.ok { Username := "bob", Password := "secret1", InviteCode := "code" }))
        = [StatusPreconditionFailed] ∧
    statuses (service.AddNode (sampleService (some Err.ErrUserNameExists) false)
      (Except.ok { Name := "tokyo", Comment := "", RequestAddress := "tokyo.example.org",
                   ConnectionAddress := "10.0.0.9", PortFrom := 10000, PortTo := 10002 }))
        = [StatusInternalServerError] :=
  have hp : service.checkPassword "secret1" = none :=
    (checkPassword_eq_none_iff "secret1").2 (by decide)
  ⟨hp,
   ((core_error_statuses (sampleService (some Err.ErrUserNameExists) false)
      { Name := "tokyo", Comment := "", RequestAddress := "tokyo.example.org",
        ConnectionAddress := "10.0.0.9", PortFrom := 10000, PortTo := 10002 }
      "n-1"
      { Name := "tokyo", Comment := "", ConnectionAddress := "10.0.0.9",
        PortFrom := 10000, PortTo := 10002 }
      { Username := "bob", Password := "secret1", InviteCode := "code" }
      [36, 50, 97]).2.2.2.2 hp rfl).1 Err.ErrUserNameExists rfl,
   (core_error_statuses (sampleService (some Err.ErrUserNameExists) false)
      { Name := "tokyo", Comment := "", RequestAddress := "tokyo.example.org",
        ConnectionAddress := "10.0.0.9", PortFrom := 10000, PortTo := 10002 }
      "n-1"
      { Name := "tokyo", Comment := "", ConnectionAddress := "10.0.0.9",
        PortFrom := 10000, PortTo := 10002 }
      { Username := "bob", Password := "secret1", InviteCode := "code" }
      [36, 50, 97]).1 Err.ErrUserNameExists rfl⟩

/-! ## C6: the middleware Auth -/

/-- C6: for a token that parsed, is valid, is unexpired and carries the string
`id` as its id claim, `Auth isAdmin` sets `id` and `token` without aborting
exactly when `isAdmin` holds and `id` is the configured `AdminUsername`, or
`isAdmin` does not hold, `id` is not empty and `CheckUserExists id` holds; in
every other case it aborts, once, with status 401. -/
theorem Auth_passes_iff (s : service.Service) (isAdmin : Bool) (token : Token) (id : String)
    (hValid : token.Valid = true)
    (hExp : token.VerifyExpiresAt (s.deps.Now / 1000000000) = true)
    (hId : token.idClaim = ClaimValue.str id) :
    (service.Auth s isAdmin (Except.ok token) =
        [AuthEffect.Set "id" (ClaimValue.str id),
         AuthEffect.Set "token" (ClaimValue.str token.Raw)] ↔
      ((isAdmin = true ∧ id = s.opts.Config.AdminUsername) ∨
        (isAdmin = false ∧ id ≠ "" ∧ s.opts.StateHandler.CheckUserExists id = true))) ∧
    (¬ ((isAdmin = true ∧ id = s.opts.Config.AdminUsername) ∨
        (isAdmin = false ∧ id ≠ "" ∧ s.opts.StateHandler.CheckUserExists id = true)) →
      ∃ err, service.Auth s isAdmin (Except.ok token) =
        [AuthEffect.AbortWithError StatusUnauthorized err]) := by
  cases isAdmin with
  | true =>
    by_cases h1 : id = s.opts.Config.AdminUsername
    · simp [service.Auth, hValid, hExp, hId, h1]
    · simp [service.Auth, hValid, hExp, hId, h1]
  | false =>
    by_cases h1 : id = ""
    · simp [service.Auth, hValid, hExp, hId, h1]
    · by_cases h2 : s.opts.StateHandler.CheckUserExists id = true
      · simp [service.Auth, hValid, hExp, hId, h1, h2]
      · simp [service.Auth, hValid, hExp, hId, h1, h2]

/-- A witness of C6: the user middleware lets the known user `u-1` through. -/
theorem Auth_passes_iff_witness :
    (sampleToken "u-1").Valid = true ∧
    service.Auth (sampleService none false) false (Except.ok (sampleToken "u-1")) =
      [AuthEffect.Set "id" (ClaimValue.str "u-1"),
       AuthEffect.Set "token" (ClaimValue.str "raw-token")] :=
  ⟨rfl,
   (Auth_passes_iff (sampleService none false) false (sampleToken "u-1") "u-1"
      rfl rfl rfl).1.2 (Or.inr ⟨rfl, by decide, by decide⟩)⟩

/-! ## C7: GetUserServices -/

/-- The loop of `GetUserServices`, started from any list `acc`. -/
theorem GetUserServices_loop {ν σ : Type} (L : List (state.NodeServices ν σ))
    (acc : List (api.NodeService ν σ)) :
    L.foldl
      (fun resp ns =>
        let r : api.NodeService ν σ := { Node := ns.Node, Service := none }
        let r := match ns.Services with
          | [] => r
          | s0 :: _ => { r with Service := some s0 }
        resp ++ [r])
      acc =
    acc ++ L.map (fun ns => { Node := ns.Node, Service := ns.Services.head? }) := by
  induction L generalizing acc with
  | nil => simp
  | cons ns rest ih =>
    rw [List.foldl_cons, ih]
    cases hs : ns.Services with
    | nil => simp [hs]
    | cons s0 more => simp [hs]

/-- C7: `GetUserServices` asks the state core for `GetNodeServices(userID, "")`
and answers 200 with a list of the same length and order, whose `i`-th entry
has the node of the `i`-th element and, as its service, the first of that
element's services, or none when it has none. -/
theorem GetUserServices_spec {ν σ : Type}
    (GetNodeServices : String → String → List (state.NodeServices ν σ)) (ctxId : String) :
    service.GetUserServices GetNodeServices ctxId =
      (StatusOK, (GetNodeServices ctxId "").map
        (fun ns => { Node := ns.Node, Service := ns.Services.head? })) ∧
    (service.GetUserServices GetNodeServices ctxId).2.length =
      (GetNodeServices ctxId "").length ∧
    ∀ i : Nat, (service.GetUserServices GetNodeServices ctxId).2[i]? =
      ((GetNodeServices ctxId "")[i]?).map
        (fun ns => { Node := ns.Node, Service := ns.Services.head? }) := by
  have h : service.GetUserServices GetNodeServices ctxId =
      (StatusOK, (GetNodeServices ctxId "").map
        (fun ns => { Node := ns.Node, Service := ns.Services.head? })) := by
    unfold service.GetUserServices
    simp only [GetUserServices_loop, List.nil_append]
  refine ⟨h, ?_, ?_⟩
  · rw [h]; simp
  · intro i
    rw [h]; simp

/-! ## C9 and C3: UserServicesSync -/

/-- A poll with an empty result emits no event and ends the stream. -/
theorem syncStep_nil {α : Type} (s : service.Service) (first : Bool) :
    events (service.syncStep s first ([] : List α)).effects = [] ∧
    (service.syncStep s first ([] : List α)).keep = false ∧
    (service.syncStep s first ([] : List α)).first = false := by
  cases first <;> simp [service.syncStep, events]

/-- A poll with a non-empty result emits its first element and goes on. -/
theorem syncStep_cons {α : Type} (s : service.Service) (first : Bool) (r0 : α)
    (rest : List α) :
    events (service.syncStep s first (r0 :: rest)).effects = [("user_sync", r0)] ∧
    (service.syncStep s first (r0 :: rest)).keep = true ∧
    (service.syncStep s first (r0 :: rest)).first = false := by
  cases first <;> simp [service.syncStep, events]

/-- C9: for a non-empty result `r0 :: rest` of `GetSyncResponse`, the step
function of `UserServicesSync` sleeps (except on the first poll) and emits
exactly one event, `user_sync`, carrying `r0`; nothing of `rest` is emitted. -/
theorem syncStep_emits_first_only {α : Type} (s : service.Service) (first : Bool) (r0 : α)
    (rest : List α) :
    (service.syncStep s first (r0 :: rest)).effects =
      (if first then [] else [StreamEffect.Sleep s.opts.Config.SyncInterval]) ++
        [StreamEffect.SSEvent "user_sync" r0] ∧
    events (service.syncStep s first (r0 :: rest)).effects = [("user_sync", r0)] := by
  cases first <;> simp [service.syncStep, events]

/-- The stream loop from poll `i` on, when the results at polls `i`, ..., `i + k - 1`
are non-empty, the one at poll `i + k` is empty and the client stays. -/
theorem Stream_syncStep {α : Type} (s : service.Service) (clientGone : Nat → Bool)
    (r : Nat → List α) :
    ∀ (k i fuel : Nat) (b : Bool),
      (∀ j, j < k → r (i + j) ≠ []) → r (i + k) = [] →
      (∀ j, j ≤ k → clientGone (i + j) = false) → k < fuel →
      ∃ trace, Stream (service.syncStep s) clientGone r fuel i b = some trace ∧
        trace.length = k + 1 ∧
        (∀ j, j < k → ∃ r0 rest, r (i + j) = r0 :: rest ∧
          (trace.map events)[j]? = some [("user_sync", r0)]) ∧
        (trace.map events)[k]? = some [] := by
  intro k
  induction k with
  | zero =>
    intro i fuel b _ hk hconn hfuel
    obtain ⟨f, rfl⟩ : ∃ f, fuel = f + 1 := ⟨fuel - 1, by omega⟩
    have hc : clientGone i = false := by simpa using hconn 0 (Nat.le_refl 0)
    have hr : r i = [] := by simpa using hk
    refine ⟨[(service.syncStep s b ([] : List α)).effects], ?_, rfl, ?_, ?_⟩
    · simp [Stream, hc, hr, (syncStep_nil s b).2.1]
    · intro j hj; omega
    · simp [(syncStep_nil (α := α) s b).1]
  | succ k ih =>
    intro i fuel b hne hk hconn hfuel
    obtain ⟨f, rfl⟩ : ∃ f, fuel = f + 1 := ⟨fuel - 1, by omega⟩
    have hc : clientGone i = false := by simpa using hconn 0 (Nat.zero_le _)
    obtain ⟨r0, rest, hr⟩ : ∃ r0 rest, r i = r0 :: rest := by
      have h0 : r i ≠ [] := by simpa using hne 0 (Nat.succ_pos k)
      cases hri : r i with
      | nil => exact absurd hri h0
      | cons a l => exact ⟨a, l, rfl⟩
    obtain ⟨t, ht, hlen, hev, hlast⟩ := ih (i + 1) f false
      (fun j hj => by
        have := hne (j + 1) (by omega)
        rwa [show i + 1 + j = i + (j + 1) by omega])
      (by rwa [show i + 1 + k = i + (k + 1) by omega])
      (fun j hj => by
        have := hconn (j + 1) (by omega)
        rwa [show i + 1 + j = i + (j + 1) by omega])
      (by omega)
    refine ⟨(service.syncStep s b (r0 :: rest)).effects :: t, ?_, ?_, ?_, ?_⟩
    · simp [Stream, hc, hr, (syncStep_cons s b r0 rest).2.1, (syncStep_cons s b r0 rest).2.2, ht]
    · simp [hlen]
    · intro j hj
      cases j with
      | zero =>
        refine ⟨r0, rest, by simpa using hr, ?_⟩
        simp [(syncStep_cons s b r0 rest).1]
      | succ j =>
        obtain ⟨a, l, hal, hget⟩ := hev j (by omega)
        refine ⟨a, l, ?_, ?_⟩
        · rw [show i + (j + 1) = i + 1 + j by omega]; exact hal
        · simpa using hget
    · simpa using hlast

/-- C3: the step function of `UserServicesSync` returns true on a non-empty
result and false on an empty one. Hence, when the results of the polls
`0, ..., k - 1` are non-empty, the result of poll `k` is empty and the client
stays connected, the stream makes exactly `k + 1` polls, each of the first `k`
emits exactly one `user_sync` event (carrying the first element of its result)
and the last one emits none. -/
theorem UserServicesSync_polls {α : Type} (s : service.Service)
    (GetSyncResponse : Nat → String → List α) (clientGone : Nat → Bool) (ctxId : String)
    (k fuel : Nat)
    (hne : ∀ j, j < k → GetSyncResponse j ctxId ≠ [])
    (hk : GetSyncResponse k ctxId = [])
    (hconn : ∀ j, j ≤ k → clientGone j = false)
    (hfuel : k < fuel) :
    (∀ (first : Bool) (r : List α), (service.syncStep s first r).keep = true ↔ r ≠ []) ∧
    ∃ trace, service.UserServicesSync s GetSyncResponse clientGone ctxId fuel = some trace ∧
      trace.length = k + 1 ∧
      (∀ j, j < k → ∃ r0 rest, GetSyncResponse j ctxId = r0 :: rest ∧
        (trace.map events)[j]? = some [("user_sync", r0)]) ∧
      (trace.map events)[k]? = some [] := by
  constructor
  · intro first r
    cases r with
    | nil => simp [(syncStep_nil s first).2.1]
    | cons r0 rest => simp [(syncStep_cons s first r0 rest).2.1]
  · have h := Stream_syncStep s clientGone (fun i => GetSyncResponse i ctxId) k 0 fuel true
      (by simpa using hne) (by simpa using hk) (by simpa using hconn) hfuel
    simpa [service.UserServicesSync] using h

/-- A witness of C3: two non-empty results and then an empty one give three
polls. -/
theorem UserServicesSync_polls_witness :
    samplePolls 2 "u-1" = [] ∧
    ∃ trace, service.UserServicesSync (sampleService none false) samplePolls
        (fun _ => false) "u-1" 5 = some trace ∧
      trace.length = 2 + 1 ∧
      (∀ j, j < 2 → ∃ r0 rest, samplePolls j "u-1" = r0 :: rest ∧
        (trace.map events)[j]? = some [("user_sync", r0)]) ∧
      (trace.map events)[2]? = some [] :=
  ⟨rfl,
   (UserServicesSync_polls (sampleService none false) samplePolls (fun _ => false) "u-1" 2 5
      (fun j hj => by
        have hj2 : j = 0 ∨ j = 1 := by omega
        rcases hj2 with rfl | rfl <;> simp [samplePolls])
      rfl (fun _ _ => rfl) (by decide)).2⟩

/-! ## C8: GetServiceOptions -/

/-- The inner loop, started from any list of methods `acc`. -/
theorem collectMethods_loop (p : Protos) (t : Int) (keys acc : List Int) :
    keys.foldl
      (fun (so : api.ServiceOptions) k =>
        let m := k
        if m = p.ServiceEncryptionMethod_NOT_SET then so
        else if p.Suit t m then { so with EncryptionMethods := so.EncryptionMethods ++ [m] }
        else so)
      { Type_ := t, EncryptionMethods := acc } =
    { Type_ := t, EncryptionMethods := acc ++ keys.filter (suits p t) } := by
  induction keys generalizing acc with
  | nil => simp
  | cons k rest ih =>
    rw [List.foldl_cons]
    by_cases h1 : k = p.ServiceEncryptionMethod_NOT_SET
    · simp only [h1, if_true]
      rw [ih]
      simp [suits]
    · by_cases h2 : p.Suit t k = true
      · simp only [h1, if_false, h2, if_true]
        rw [ih]
        simp [suits, h1, h2]
      · simp only [h1, if_false, h2, Bool.false_eq_true]
        rw [ih]
        simp [suits, h1, h2]

theorem collectMethods_eq (p : Protos) (t : Int) (keys : List Int) :
    service.collectMethods p t keys =
      { Type_ := t, EncryptionMethods := keys.filter (suits p t) } := by
  unfold service.collectMethods
  rw [collectMethods_loop]
  simp

theorem GetServiceOptions_eq (p : Protos) (rangeKeys : Nat → List Int) :
    service.GetServiceOptions p rangeKeys =
      (StatusOK,
        [{ Type_ := p.ServiceType_SS_LIBEV,
           EncryptionMethods := sortSlice ((rangeKeys 0).filter (suits p p.ServiceType_SS_LIBEV)) },
         { Type_ := p.ServiceType_SSR,
           EncryptionMethods := sortSlice ((rangeKeys 1).filter (suits p p.ServiceType_SSR)) }]) := by
  simp [service.GetServiceOptions, List.enum, List.enumFrom, collectMethods_eq]

/-- The sorted methods of one type, for an iteration order `ks` of the key set
`keys`: strictly ascending, and exactly the suitable keys. -/
theorem sortSlice_filter_spec (p : Protos) (t : Int) (keys ks : List Int)
    (hnd : keys.Nodup) (hperm : ks.Perm keys) :
    (sortSlice (ks.filter (suits p t))).Sorted (fun a b => a < b) ∧
    (∀ m, m ∈ sortSlice (ks.filter (suits p t)) ↔
      (m ∈ keys ∧ m ≠ p.ServiceEncryptionMethod_NOT_SET ∧ p.Suit t m = true)) := by
  have hpm : (sortSlice (ks.filter (suits p t))).Perm (ks.filter (suits p t)) :=
    List.perm_insertionSort _ _
  have hsorted : (sortSlice (ks.filter (suits p t))).Sorted (fun a b => a ≤ b) :=
    List.sorted_insertionSort _ _
  have hnd2 : (sortSlice (ks.filter (suits p t))).Nodup :=
    hpm.nodup_iff.2 ((hperm.nodup_iff.2 hnd).filter _)
  refine ⟨hsorted.lt_of_le hnd2, ?_⟩
  intro m
  rw [hpm.mem_iff, List.mem_filter, hperm.mem_iff]
  simp [suits]

theorem sortSlice_filter_perm (p : Protos) (t : Int) (ks1 ks2 : List Int)
    (hperm : ks1.Perm ks2) :
    sortSlice (ks1.filter (suits p t)) = sortSlice (ks2.filter (suits p t)) := by
  apply List.eq_of_perm_of_sorted (r := fun a b : Int => a ≤ b)
  · exact ((List.perm_insertionSort _ _).trans (hperm.filter _)).trans
      (List.perm_insertionSort _ _).symm
  · exact List.sorted_insertionSort _ _
  · exact List.sorted_insertionSort _ _

/-- C8: when the keys of the map `ServiceEncryptionMethod_Enum_name` are the
duplicate-free list `keys` and every `range` over the map yields them in some
order, `GetServiceOptions` answers 200 with exactly two entries, for `SS_LIBEV`
then `SSR`; the methods of each entry are strictly ascending (hence without
duplicates) and are exactly the keys other than `NOT_SET` that suit the type;
and any other iteration orders give the same answer. -/
theorem GetServiceOptions_spec (p : Protos) (keys : List Int) (rangeKeys : Nat → List Int)
    (hnd : keys.Nodup) (hperm : ∀ i, (rangeKeys i).Perm keys) :
    ∃ l1 l2 : List Int,
      service.GetServiceOptions p rangeKeys =
        (StatusOK, [{ Type_ := p.ServiceType_SS_LIBEV, EncryptionMethods := l1 },
                    { Type_ := p.ServiceType_SSR, EncryptionMethods := l2 }]) ∧
      l1.Sorted (fun a b => a < b) ∧ l1.Nodup ∧
      (∀ m, m ∈ l1 ↔ (m ∈ keys ∧ m ≠ p.ServiceEncryptionMethod_NOT_SET ∧
        p.Suit p.ServiceType_SS_LIBEV m = true)) ∧
      l2.Sorted (fun a b => a < b) ∧ l2.Nodup ∧
      (∀ m, m ∈ l2 ↔ (m ∈ keys ∧ m ≠ p.ServiceEncryptionMethod_NOT_SET ∧
        p.Suit p.ServiceType_SSR m = true)) ∧
      (∀ rangeKeys2 : Nat → List Int, (∀ i, (rangeKeys2 i).Perm keys) →
        service.GetServiceOptions p rangeKeys2 = service.GetServiceOptions p rangeKeys) := by
  have h1 := sortSlice_filter_spec p p.ServiceType_SS_LIBEV keys (rangeKeys 0) hnd (hperm 0)
  have h2 := sortSlice_filter_spec p p.ServiceType_SSR keys (rangeKeys 1) hnd (hperm 1)
  refine ⟨_, _, GetServiceOptions_eq p rangeKeys, h1.1, h1.1.nodup, h1.2, h2.1, h2.1.nodup,
    h2.2, ?_⟩
  intro rangeKeys2 hperm2
  rw [GetServiceOptions_eq, GetServiceOptions_eq,
    sortSlice_filter_perm p p.ServiceType_SS_LIBEV (rangeKeys2 0) (rangeKeys 0)
      ((hperm2 0).trans (hperm 0).symm),
    sortSlice_filter_perm p p.ServiceType_SSR (rangeKeys2 1) (rangeKeys 1)
      ((hperm2 1).trans (hperm 1).symm)]

/-- A witness of C8: the keys 0, ..., 4 ranged over in two different orders. -/
theorem GetServiceOptions_spec_witness :
    [0, 1, 2, 3, (4 : Int)].Nodup ∧
    ∃ l1 l2 : List Int,
      service.GetServiceOptions sampleProtos sampleRangeKeys =
        (StatusOK, [{ Type_ := 1, EncryptionMethods := l1 },
                    { Type_ := 2, EncryptionMethods := l2 }]) ∧
      l1.Sorted (fun a b => a < b) ∧ l2.Sorted (fun a b => a < b) :=
  have hnd : [0, 1, 2, 3, (4 : Int)].Nodup := by decide
  have hperm : ∀ i, (sampleRangeKeys i).Perm [0, 1, 2, 3, (4 : Int)] := by
    intro i
    cases i with
    | zero => decide
    | succ n =>
      show ([4, 3, 2, 1, 0] : List Int).Perm [0, 1, 2, 3, 4]
      decide
  ⟨hnd,
   (GetServiceOptions_spec sampleProtos [0, 1, 2, 3, 4] sampleRangeKeys hnd hperm).elim
     (fun l1 h => h.elim (fun l2 h2 => ⟨l1, l2, h2.1, h2.2.1, h2.2.2.2.2.1⟩))⟩

end Ignite
